import Mathlib

/-!
Shallow embedding of the rta-lib biquad coefficient-design engine
(`src/rta_biquad.c`) and of the control flow of the yin mex entry point
(`src/matlab/rta_mex_yin.c`), with theorems about the documented
coefficient formulas, the dispatcher's gain handling, and the buffer-size
branch of the mex entry point.

The C functions write their results through the pointers `b` (three cells)
and `a` (two cells); we model the pointed-to memory as a `BiquadCoefs`
record threaded through each call, so that a function which reads a cell
before writing it (the notch formula reads `b[1]`) and a dispatch which
writes nothing (an unrecognised type tag) are represented faithfully.
Real arithmetic stands in for the C floating-point type `rta_real_t`.
-/

/-- The five coefficient cells written through the `b` and `a` pointers:
`b[0], b[1], b[2]` and the two denominator cells.  Following the comment in
`rta_biquad.c` ("a1 is a[0] and a2 is a[1]"), field `a1` is the C cell
`a[0]` and field `a2` is the C cell `a[1]`. -/
structure BiquadCoefs where
  b0 : ℝ
  b1 : ℝ
  b2 : ℝ
  a1 : ℝ
  a2 : ℝ

/-- `rta_biquad_lowpass_coefs` (rta_biquad.c:37): LPF, H(s) = 1 / (s^2 + s/Q + 1). -/
noncomputable def rta_biquad_lowpass_coefs (_st : BiquadCoefs) (f0 q : ℝ) : BiquadCoefs :=
  let w0 := Real.pi * f0
  let alpha := Real.sin w0 / (2 * q)
  let c := Real.cos w0
  let a0_inv := 1 / (1 + alpha)
  { b0 := ((1 - c) * 0.5) * a0_inv
    b1 := (1 - c) * a0_inv
    b2 := ((1 - c) * 0.5) * a0_inv
    a1 := (-2 * c) * a0_inv
    a2 := (1 - alpha) * a0_inv }

/-- `rta_biquad_highpass_coefs` (rta_biquad.c:57): HPF, H(s) = s^2 / (s^2 + s/Q + 1). -/
noncomputable def rta_biquad_highpass_coefs (_st : BiquadCoefs) (f0 q : ℝ) : BiquadCoefs :=
  let w0 := Real.pi * f0
  let alpha := Real.sin w0 / (2 * q)
  let c := Real.cos w0
  let a0_inv := 1 / (1 + alpha)
  { b0 := ((1 + c) * 0.5) * a0_inv
    b1 := (-1 - c) * a0_inv
    b2 := ((1 + c) * 0.5) * a0_inv
    a1 := (-2 * c) * a0_inv
    a2 := (1 - alpha) * a0_inv }

/-- `rta_biquad_bandpass_constant_skirt_coefs` (rta_biquad.c:77): BPF,
H(s) = s / (s^2 + s/Q + 1), constant skirt gain, peak gain = Q. -/
noncomputable def rta_biquad_bandpass_constant_skirt_coefs (_st : BiquadCoefs) (f0 q : ℝ) :
    BiquadCoefs :=
  let w0 := Real.pi * f0
  let s := Real.sin w0
  let alpha := s / (2 * q)
  let c := Real.cos w0
  let a0_inv := 1 / (1 + alpha)
  { b0 := (s * 0.5) * a0_inv
    b1 := 0
    b2 := -((s * 0.5) * a0_inv)
    a1 := (-2 * c) * a0_inv
    a2 := (1 - alpha) * a0_inv }

/-- `rta_biquad_bandpass_constant_peak_coefs` (rta_biquad.c:99): BPF,
H(s) = (s/Q) / (s^2 + s/Q + 1), constant 0 dB peak gain. -/
noncomputable def rta_biquad_bandpass_constant_peak_coefs (_st : BiquadCoefs) (f0 q : ℝ) :
    BiquadCoefs :=
  let w0 := Real.pi * f0
  let alpha := Real.sin w0 / (2 * q)
  let c := Real.cos w0
  let a0_inv := 1 / (1 + alpha)
  { b0 := alpha * a0_inv
    b1 := 0
    b2 := -(alpha * a0_inv)
    a1 := (-2 * c) * a0_inv
    a2 := (1 - alpha) * a0_inv }

/-- `rta_biquad_notch_coefs` (rta_biquad.c:120): notch,
H(s) = (s^2 + 1) / (s^2 + s/Q + 1).  The C line 133 reads `b[1] = b[1];`:
the cell keeps the value it held on entry, so the embedding copies `st.b1`. -/
noncomputable def rta_biquad_notch_coefs (st : BiquadCoefs) (f0 q : ℝ) : BiquadCoefs :=
  let w0 := Real.pi * f0
  let alpha := Real.sin w0 / (2 * q)
  let c := Real.cos w0
  let a0_inv := 1 / (1 + alpha)
  { b0 := a0_inv
    b1 := st.b1
    b2 := a0_inv
    a1 := (-2 * c) * a0_inv
    a2 := (1 - alpha) * a0_inv }

/-- `rta_biquad_allpass_coefs` (rta_biquad.c:140): APF,
H(s) = (s^2 - s/Q + 1) / (s^2 + s/Q + 1).  The C code writes `a[0]` and
`a[1]` first and then copies them: `b[0] = a[1]; b[1] = a[0];`. -/
noncomputable def rta_biquad_allpass_coefs (_st : BiquadCoefs) (f0 q : ℝ) : BiquadCoefs :=
  let w0 := Real.pi * f0
  let alpha := Real.sin w0 / (2 * q)
  let c := Real.cos w0
  let a0_inv := 1 / (1 + alpha)
  let na1 := (-2 * c) * a0_inv
  let na2 := (1 - alpha) * a0_inv
  { b0 := na2
    b1 := na1
    b2 := (1 + alpha) * a0_inv
    a1 := na1
    a2 := na2 }

/-- `rta_biquad_peaking_coefs` (rta_biquad.c:162): peakingEQ,
H(s) = (s^2 + s*(A/Q) + 1) / (s^2 + s/(A*Q) + 1), A = sqrt(gain). -/
noncomputable def rta_biquad_peaking_coefs (_st : BiquadCoefs) (f0 q gain : ℝ) : BiquadCoefs :=
  let g := Real.sqrt gain
  let g_inv := 1 / g
  let w0 := Real.pi * f0
  let alpha := Real.sin w0 / (2 * q)
  let c := Real.cos w0
  let a0_inv := 1 / (1 + alpha * g_inv)
  let na1 := (-2 * c) * a0_inv
  { b0 := (1 + alpha * g) * a0_inv
    b1 := na1
    b2 := (1 - alpha * g) * a0_inv
    a1 := na1
    a2 := (1 - alpha * g_inv) * a0_inv }

/-- `rta_biquad_lowshelf_coefs` (rta_biquad.c:188): lowShelf,
H(s) = A * (s^2 + (sqrt(A)/Q)*s + A) / (A*s^2 + (sqrt(A)/Q)*s + 1), A = sqrt(gain). -/
noncomputable def rta_biquad_lowshelf_coefs (_st : BiquadCoefs) (f0 q gain : ℝ) : BiquadCoefs :=
  let g := Real.sqrt gain
  let w0 := Real.pi * f0
  let alpha_2_sqrtg := Real.sin w0 * Real.sqrt g / q
  let c := Real.cos w0
  let a0_inv := 1 / ((g + 1) + (g - 1) * c + alpha_2_sqrtg)
  { b0 := (g * ((g + 1) - (g - 1) * c + alpha_2_sqrtg)) * a0_inv
    b1 := (2 * g * ((g - 1) - (g + 1) * c)) * a0_inv
    b2 := (g * ((g + 1) - (g - 1) * c - alpha_2_sqrtg)) * a0_inv
    a1 := (-2 * ((g - 1) + (g + 1) * c)) * a0_inv
    a2 := ((g + 1) + (g - 1) * c - alpha_2_sqrtg) * a0_inv }

/-- `rta_biquad_highshelf_coefs` (rta_biquad.c:214): highShelf,
H(s) = A * (A*s^2 + (sqrt(A)/Q)*s + 1) / (s^2 + (sqrt(A)/Q)*s + A), A = sqrt(gain). -/
noncomputable def rta_biquad_highshelf_coefs (_st : BiquadCoefs) (f0 q gain : ℝ) : BiquadCoefs :=
  let g := Real.sqrt gain
  let w0 := Real.pi * f0
  let alpha_2_sqrtg := Real.sin w0 * Real.sqrt g / q
  let c := Real.cos w0
  let a0_inv := 1 / ((g + 1) - (g - 1) * c + alpha_2_sqrtg)
  { b0 := (g * ((g + 1) + (g - 1) * c + alpha_2_sqrtg)) * a0_inv
    b1 := (-2 * g * ((g - 1) + (g + 1) * c)) * a0_inv
    b2 := (g * ((g + 1) + (g - 1) * c - alpha_2_sqrtg)) * a0_inv
    a1 := (2 * ((g - 1) - (g + 1) * c)) * a0_inv
    a2 := ((g + 1) - (g - 1) * c - alpha_2_sqrtg) * a0_inv }

/-- Modelled from the spec: the enumeration `rta_filter_t` lives in
`rta_filter.h`, which is not among the sources; the spec (§3) lists exactly
nine tags.  They are modelled as distinct natural numbers so that a tag
outside the enumeration — a C enum value is just an integer — remains
expressible for the dispatch theorems. -/
def rta_lowpass : ℕ := 0

/-- Filter-type tag, see `rta_lowpass`. -/
def rta_highpass : ℕ := 1

/-- Filter-type tag, see `rta_lowpass`. -/
def rta_bandpass_constant_skirt : ℕ := 2

/-- Filter-type tag, see `rta_lowpass`. -/
def rta_bandpass_constant_peak : ℕ := 3

/-- Filter-type tag, see `rta_lowpass`. -/
def rta_notch : ℕ := 4

/-- Filter-type tag, see `rta_lowpass`. -/
def rta_allpass : ℕ := 5

/-- Filter-type tag, see `rta_lowpass`. -/
def rta_peaking : ℕ := 6

/-- Filter-type tag, see `rta_lowpass`. -/
def rta_lowshelf : ℕ := 7

/-- Filter-type tag, see `rta_lowpass`. -/
def rta_highshelf : ℕ := 8

/-- First `switch` of `rta_biquad_coefs` (rta_biquad.c:244): route to the
formula matching the type tag; no `default` case, so an unrecognised tag
leaves the pointed-to coefficients untouched. -/
noncomputable def rta_biquad_coefs_select (st : BiquadCoefs) (type : ℕ) (f0 q gain : ℝ) :
    BiquadCoefs :=
  if type = rta_lowpass then rta_biquad_lowpass_coefs st f0 q
  else if type = rta_highpass then rta_biquad_highpass_coefs st f0 q
  else if type = rta_bandpass_constant_skirt then
    rta_biquad_bandpass_constant_skirt_coefs st f0 q
  else if type = rta_bandpass_constant_peak then
    rta_biquad_bandpass_constant_peak_coefs st f0 q
  else if type = rta_notch then rta_biquad_notch_coefs st f0 q
  else if type = rta_allpass then rta_biquad_allpass_coefs st f0 q
  else if type = rta_peaking then rta_biquad_peaking_coefs st f0 q gain
  else if type = rta_lowshelf then rta_biquad_lowshelf_coefs st f0 q gain
  else if type = rta_highshelf then rta_biquad_highshelf_coefs st f0 q gain
  else st

/-- `rta_biquad_coefs` (rta_biquad.c:238): dispatch by type, then — second
`switch` (rta_biquad.c:283) — for the six gain-less shapes and `gain != 1.`
multiply the three `b` cells by `gain`. -/
noncomputable def rta_biquad_coefs (st : BiquadCoefs) (type : ℕ) (f0 q gain : ℝ) :
    BiquadCoefs :=
  let st1 := rta_biquad_coefs_select st type f0 q gain
  if (type = rta_lowpass ∨ type = rta_highpass ∨ type = rta_bandpass_constant_skirt ∨
      type = rta_bandpass_constant_peak ∨ type = rta_notch ∨ type = rta_allpass) ∧
      gain ≠ 1 then
    { st1 with b0 := st1.b0 * gain, b1 := st1.b1 * gain, b2 := st1.b2 * gain }
  else st1

/-- Reference lowpass coefficients written from the spec's words (§4.1, §8):
with `w0 = π·f0`, `c = cos(w0)`, `alpha = sin(w0)/(2q)`, `a0_inv = 1/(1+alpha)`,
set `a1 = -2c·a0_inv`, `a2 = (1-alpha)·a0_inv`, `b0 = b2 = ((1-c)/2)·a0_inv`,
`b1 = (1-c)·a0_inv`. -/
noncomputable def lowpass_cookbook_reference (f0 q : ℝ) : BiquadCoefs :=
  let w0 := Real.pi * f0
  let c := Real.cos w0
  let alpha := Real.sin w0 / (2 * q)
  let a0_inv := 1 / (1 + alpha)
  { b0 := (1 - c) / 2 * a0_inv
    b1 := (1 - c) * a0_inv
    b2 := (1 - c) / 2 * a0_inv
    a1 := -2 * c * a0_inv
    a2 := (1 - alpha) * a0_inv }

/-- Shared denominator coefficient `a[0]` written from the spec's words
(§4.1 table): `-2·cos(π·f0)·a0_inv`. -/
noncomputable def denom_a1_cookbook (f0 q : ℝ) : ℝ :=
  -2 * Real.cos (Real.pi * f0) * (1 / (1 + Real.sin (Real.pi * f0) / (2 * q)))

/-- Shared denominator coefficient `a[1]` written from the spec's words
(§4.1 table): `(1-alpha)·a0_inv` with `alpha = sin(π·f0)/(2q)`. -/
noncomputable def denom_a2_cookbook (f0 q : ℝ) : ℝ :=
  (1 - Real.sin (Real.pi * f0) / (2 * q)) * (1 / (1 + Real.sin (Real.pi * f0) / (2 * q)))

/-- Result of the external `rta_yin` call as the mex entry point sees it
(the yin algorithm itself is out of scope per spec §1): the returned `lag`,
the `abs_min` out-parameter, and the contents the call leaves in the
`autocorrelation` buffer. -/
structure YinResult where
  lag : ℝ
  abs_min : ℝ
  autocorrelation : ℕ → ℝ

/-- `ac_size` computation of the mex entry point (rta_mex_yin.c:69):
`(unsigned int) ceil(sample_rate / min_freq) + 2`. -/
noncomputable def mex_ac_size (sample_rate min_freq : ℝ) : ℕ :=
  (⌈sample_rate / min_freq⌉).toNat + 2

/-- Guarded `ac1_over_ac0` output (rta_mex_yin.c:110): the quotient
`autocorrelation[1]/autocorrelation[0]` when `autocorrelation[0] != 0.0`,
else `0.0`. -/
noncomputable def mex_ac1_over_ac0 (autocorrelation : ℕ → ℝ) : ℝ :=
  if autocorrelation 0 ≠ 0 then autocorrelation 1 / autocorrelation 0 else 0

/-- Outcome of one mex call: either the five outputs (f0, energy,
periodicity, ac1_over_ac0, autocorrelation buffer of length `ac_size`), or
the printed diagnostic naming the minimum (`ac_size + 1`) and recommended
(`2·ac_size`) number of input points, with no outputs created. -/
inductive MexYinOutcome where
  | outputs (f0 energy periodicity ac1_over_ac0 : ℝ)
      (autocorrelation : ℕ → ℝ) (ac_size : ℕ)
  | diagnostic (min_points recommended : ℕ)

/-- `mexFunction` control flow (rta_mex_yin.c:27): compute `ac_size`; when
`ac_size < input_size` allocate the five outputs, run yin (abstracted as
`r`), and conform the results; otherwise print the diagnostic
`"at least ac_size+1 points expected (2·ac_size recommended)"` and create
no outputs. -/
noncomputable def mexFunction (r : YinResult) (input_size : ℕ)
    (sample_rate min_freq : ℝ) : MexYinOutcome :=
  let ac_size := mex_ac_size sample_rate min_freq
  if ac_size < input_size then
    MexYinOutcome.outputs (sample_rate / r.lag)
      (Real.sqrt (r.autocorrelation 0 / ((input_size : ℝ) - (ac_size : ℝ))))
      (1 - Real.sqrt r.abs_min)
      (mex_ac1_over_ac0 r.autocorrelation)
      r.autocorrelation ac_size
  else
    MexYinOutcome.diagnostic (ac_size + 1) (2 * ac_size)

/-- For `0 < f0 < 1` the angle `π·f0` lies strictly inside `(0, π)`, so its
sine is positive; hence the damping term `alpha` is positive for `q > 0`. -/
lemma sin_pi_mul_pos {f0 : ℝ} (hf0 : 0 < f0) (hf1 : f0 < 1) :
    0 < Real.sin (Real.pi * f0) := by
  apply Real.sin_pos_of_pos_of_lt_pi
  · positivity
  · calc Real.pi * f0 < Real.pi * 1 := by
          exact mul_lt_mul_of_pos_left hf1 Real.pi_pos
    _ = Real.pi := mul_one _

/-- Claim C1: for every `f0 ∈ (0,1)` and `q > 0`, `rta_biquad_lowpass_coefs`
returns exactly the cookbook lowpass coefficients (`a1 = -2c·a0_inv`,
`a2 = (1-alpha)·a0_inv`, `b0 = b2 = ((1-c)/2)·a0_inv`, `b1 = (1-c)·a0_inv`),
and the dispatcher call with type `rta_lowpass` and `gain = 1` returns those
same reference coefficients. -/
theorem C1_lowpass_matches_cookbook (st : BiquadCoefs) (f0 q : ℝ)
    (hf0 : 0 < f0) (hf1 : f0 < 1) (hq : 0 < q) :
    rta_biquad_lowpass_coefs st f0 q = lowpass_cookbook_reference f0 q ∧
    rta_biquad_coefs st rta_lowpass f0 q 1 = lowpass_cookbook_reference f0 q := by
  have hformula : rta_biquad_lowpass_coefs st f0 q = lowpass_cookbook_reference f0 q := by
    simp only [rta_biquad_lowpass_coefs, lowpass_cookbook_reference, BiquadCoefs.mk.injEq]
    refine ⟨by ring, by ring, by ring, by ring, by ring⟩
  refine ⟨hformula, ?_⟩
  rw [rta_biquad_coefs, rta_biquad_coefs_select]
  simp only [rta_lowpass, rta_highpass, rta_bandpass_constant_skirt,
    rta_bandpass_constant_peak, rta_notch, rta_allpass, ne_eq, not_true_eq_false,
    and_false, if_false, if_true, reduceIte]
  exact hformula

/-- Witness for C1 at the spec's end-to-end scenario
`f0 = 0.1`, `q = 0.7071`, `gain = 1`. -/
theorem C1_witness :
    rta_biquad_coefs ⟨0, 0, 0, 0, 0⟩ rta_lowpass 0.1 0.7071 1 =
      lowpass_cookbook_reference 0.1 0.7071 :=
  (C1_lowpass_matches_cookbook ⟨0, 0, 0, 0, 0⟩ 0.1 0.7071 (by norm_num) (by norm_num)
    (by norm_num)).2

/-- Claim C2: `rta_biquad_notch_coefs` assigns its middle numerator cell from
itself (`b[1] = b[1];`), so for every `f0 ∈ (0,1)` and `q > 0` the value in
`b[1]` on return equals the value held on entry. -/
theorem C2_notch_b1_passthrough (st : BiquadCoefs) (f0 q : ℝ)
    (hf0 : 0 < f0) (hf1 : f0 < 1) (hq : 0 < q) :
    (rta_biquad_notch_coefs st f0 q).b1 = st.b1 := by
  simp [rta_biquad_notch_coefs]

/-- Witness for C2: an entry value of `7` in `b[1]` survives the notch design
at `f0 = 1/2`, `q = 1`. -/
theorem C2_witness :
    (rta_biquad_notch_coefs ⟨0, 7, 0, 0, 0⟩ (1/2) 1).b1 = 7 := by
  have h := C2_notch_b1_passthrough ⟨0, 7, 0, 0, 0⟩ (1/2) 1 (by norm_num) (by norm_num)
    (by norm_num)
  simpa using h

/-- Claim C7: for every `f0 ∈ (0,1)` and `q > 0` the allpass numerator is the
reverse of the denominator: `b[0]` equals the normalized `a2`
(`(1-alpha)·a0_inv`), `b[1]` equals the normalized `a1` (`-2c·a0_inv`), and
`b[2] = (1+alpha)·a0_inv`, the normalized `a0`, which equals `1`. -/
theorem C7_allpass_numerator_reverses_denominator (st : BiquadCoefs) (f0 q : ℝ)
    (hf0 : 0 < f0) (hf1 : f0 < 1) (hq : 0 < q) :
    (rta_biquad_allpass_coefs st f0 q).b0 = (rta_biquad_allpass_coefs st f0 q).a2 ∧
    (rta_biquad_allpass_coefs st f0 q).b1 = (rta_biquad_allpass_coefs st f0 q).a1 ∧
    (rta_biquad_allpass_coefs st f0 q).b0 = denom_a2_cookbook f0 q ∧
    (rta_biquad_allpass_coefs st f0 q).b1 = denom_a1_cookbook f0 q ∧
    (rta_biquad_allpass_coefs st f0 q).b2 =
      (1 + Real.sin (Real.pi * f0) / (2 * q)) *
        (1 / (1 + Real.sin (Real.pi * f0) / (2 * q))) ∧
    (rta_biquad_allpass_coefs st f0 q).b2 = 1 := by
  have halpha : 0 < Real.sin (Real.pi * f0) / (2 * q) :=
    div_pos (sin_pi_mul_pos hf0 hf1) (by linarith)
  have hne : (1 : ℝ) + Real.sin (Real.pi * f0) / (2 * q) ≠ 0 := by linarith
  refine ⟨?_, ?_, ?_, ?_, ?_, ?_⟩
  · simp only [rta_biquad_allpass_coefs]
  · simp only [rta_biquad_allpass_coefs]
  · simp only [rta_biquad_allpass_coefs, denom_a2_cookbook]
  · simp only [rta_biquad_allpass_coefs, denom_a1_cookbook]
  · simp only [rta_biquad_allpass_coefs]
  · simp only [rta_biquad_allpass_coefs]
    exact mul_one_div_cancel hne

/-- Witness for C7 at `f0 = 1/2`, `q = 1`: the normalized `b[2]` is exactly 1. -/
theorem C7_witness :
    (rta_biquad_allpass_coefs ⟨0, 0, 0, 0, 0⟩ (1/2) 1).b2 = 1 :=
  (C7_allpass_numerator_reverses_denominator ⟨0, 0, 0, 0, 0⟩ (1/2) 1 (by norm_num)
    (by norm_num) (by norm_num)).2.2.2.2.2

/-- Claim C8: for every `f0 ∈ (0,1)` and `q > 0`, the gain-less shapes
(lowpass, highpass, both bandpass variants, notch, allpass) all produce the
same denominator: `a[0] = -2·cos(π·f0)·a0_inv` and `a[1] = (1-alpha)·a0_inv`
with `a0_inv = 1/(1+alpha)`. -/
theorem C8_shared_denominator (st : BiquadCoefs) (f0 q : ℝ)
    (hf0 : 0 < f0) (hf1 : f0 < 1) (hq : 0 < q) :
    ((rta_biquad_lowpass_coefs st f0 q).a1 = denom_a1_cookbook f0 q ∧
     (rta_biquad_lowpass_coefs st f0 q).a2 = denom_a2_cookbook f0 q) ∧
    ((rta_biquad_highpass_coefs st f0 q).a1 = denom_a1_cookbook f0 q ∧
     (rta_biquad_highpass_coefs st f0 q).a2 = denom_a2_cookbook f0 q) ∧
    ((rta_biquad_bandpass_constant_skirt_coefs st f0 q).a1 = denom_a1_cookbook f0 q ∧
     (rta_biquad_bandpass_constant_skirt_coefs st f0 q).a2 = denom_a2_cookbook f0 q) ∧
    ((rta_biquad_bandpass_constant_peak_coefs st f0 q).a1 = denom_a1_cookbook f0 q ∧
     (rta_biquad_bandpass_constant_peak_coefs st f0 q).a2 = denom_a2_cookbook f0 q) ∧
    ((rta_biquad_notch_coefs st f0 q).a1 = denom_a1_cookbook f0 q ∧
     (rta_biquad_notch_coefs st f0 q).a2 = denom_a2_cookbook f0 q) ∧
    ((rta_biquad_allpass_coefs st f0 q).a1 = denom_a1_cookbook f0 q ∧
     (rta_biquad_allpass_coefs st f0 q).a2 = denom_a2_cookbook f0 q) := by
  refine ⟨⟨?_, ?_⟩, ⟨?_, ?_⟩, ⟨?_, ?_⟩, ⟨?_, ?_⟩, ⟨?_, ?_⟩, ⟨?_, ?_⟩⟩ <;>
    simp only [rta_biquad_lowpass_coefs, rta_biquad_highpass_coefs,
      rta_biquad_bandpass_constant_skirt_coefs, rta_biquad_bandpass_constant_peak_coefs,
      rta_biquad_notch_coefs, rta_biquad_allpass_coefs,
      denom_a1_cookbook, denom_a2_cookbook]

/-- Witness for C8 at `f0 = 1/2`, `q = 1`: lowpass `a[0]` matches the shared
denominator formula. -/
theorem C8_witness :
    (rta_biquad_lowpass_coefs ⟨0, 0, 0, 0, 0⟩ (1/2) 1).a1 = denom_a1_cookbook (1/2) 1 :=
  (C8_shared_denominator ⟨0, 0, 0, 0, 0⟩ (1/2) 1 (by norm_num) (by norm_num)
    (by norm_num)).1.1

/-- Counterexample for claim C3: the tag `9` matches none of the nine
enumerated filter types, yet `rta_biquad_coefs` does not report any error —
its only effect is on the coefficient cells, and with tag `9` it returns them
exactly as they were on entry (both `switch` statements fall through). -/
theorem C3_counterexample :
    (9 ≠ rta_lowpass ∧ 9 ≠ rta_highpass ∧ 9 ≠ rta_bandpass_constant_skirt ∧
     9 ≠ rta_bandpass_constant_peak ∧ 9 ≠ rta_notch ∧ 9 ≠ rta_allpass ∧
     9 ≠ rta_peaking ∧ 9 ≠ rta_lowshelf ∧ 9 ≠ rta_highshelf) ∧
    rta_biquad_coefs ⟨1, 2, 3, 4, 5⟩ 9 (1/2) 1 1 = ⟨1, 2, 3, 4, 5⟩ := by
  refine ⟨by decide, ?_⟩
  rw [rta_biquad_coefs, rta_biquad_coefs_select]
  norm_num [rta_lowpass, rta_highpass, rta_bandpass_constant_skirt,
    rta_bandpass_constant_peak, rta_notch, rta_allpass, rta_peaking, rta_lowshelf,
    rta_highshelf]

/-- Claim C3 as amended: with a filter-type tag matching none of the nine
enumerated values, `rta_biquad_coefs` performs no computation and returns the
coefficient cells unchanged; no error is reported (the C function returns
`void` and has no error channel). -/
theorem C3_unknown_type_silent_noop (st : BiquadCoefs) (type : ℕ) (f0 q gain : ℝ)
    (h : type ∉ ([rta_lowpass, rta_highpass, rta_bandpass_constant_skirt,
      rta_bandpass_constant_peak, rta_notch, rta_allpass, rta_peaking, rta_lowshelf,
      rta_highshelf] : List ℕ)) :
    rta_biquad_coefs st type f0 q gain = st := by
  simp only [List.mem_cons, List.not_mem_nil, or_false, not_or] at h
  obtain ⟨h0, h1, h2, h3, h4, h5, h6, h7, h8⟩ := h
  rw [rta_biquad_coefs, rta_biquad_coefs_select]
  simp [h0, h1, h2, h3, h4, h5, h6, h7, h8]

/-- Witness for the amended C3 at the unknown tag `42`. -/
theorem C3_witness :
    rta_biquad_coefs ⟨1, 1, 1, 1, 1⟩ 42 (1/2) 1 1 = ⟨1, 1, 1, 1, 1⟩ :=
  C3_unknown_type_silent_noop ⟨1, 1, 1, 1, 1⟩ 42 (1/2) 1 1 (by decide)

/-- For a gain-less type tag, the first `switch` ignores the `gain`
argument: the routed formula functions take only `(f0, q)`. -/
lemma rta_biquad_coefs_select_gain_irrel (st : BiquadCoefs) (type : ℕ) (f0 q g g' : ℝ)
    (ht : type = rta_lowpass ∨ type = rta_highpass ∨ type = rta_bandpass_constant_skirt ∨
      type = rta_bandpass_constant_peak ∨ type = rta_notch ∨ type = rta_allpass) :
    rta_biquad_coefs_select st type f0 q g = rta_biquad_coefs_select st type f0 q g' := by
  rcases ht with h | h | h | h | h | h <;> subst h <;>
    simp [rta_biquad_coefs_select, rta_lowpass, rta_highpass, rta_bandpass_constant_skirt,
      rta_bandpass_constant_peak, rta_notch, rta_allpass, rta_peaking, rta_lowshelf,
      rta_highshelf]

/-- Claim C4: for every gain-less shape (lowpass, highpass, both bandpass
variants, notch, allpass), every `f0 ∈ (0,1)`, `q > 0` and `k > 0`, the `b`
coefficients of `rta_biquad_coefs type f0 q k` are `k` times those of
`rta_biquad_coefs type f0 q 1`, and the `a` coefficients are identical. -/
theorem C4_gain_linearity (st : BiquadCoefs) (type : ℕ) (f0 q k : ℝ)
    (ht : type = rta_lowpass ∨ type = rta_highpass ∨ type = rta_bandpass_constant_skirt ∨
      type = rta_bandpass_constant_peak ∨ type = rta_notch ∨ type = rta_allpass)
    (hf0 : 0 < f0) (hf1 : f0 < 1) (hq : 0 < q) (hk : 0 < k) :
    (rta_biquad_coefs st type f0 q k).b0 = k * (rta_biquad_coefs st type f0 q 1).b0 ∧
    (rta_biquad_coefs st type f0 q k).b1 = k * (rta_biquad_coefs st type f0 q 1).b1 ∧
    (rta_biquad_coefs st type f0 q k).b2 = k * (rta_biquad_coefs st type f0 q 1).b2 ∧
    (rta_biquad_coefs st type f0 q k).a1 = (rta_biquad_coefs st type f0 q 1).a1 ∧
    (rta_biquad_coefs st type f0 q k).a2 = (rta_biquad_coefs st type f0 q 1).a2 := by
  have hsel : rta_biquad_coefs_select st type f0 q k =
      rta_biquad_coefs_select st type f0 q 1 :=
    rta_biquad_coefs_select_gain_irrel st type f0 q k 1 ht
  have hone : rta_biquad_coefs st type f0 q 1 = rta_biquad_coefs_select st type f0 q 1 := by
    rw [rta_biquad_coefs]
    simp
  by_cases hk1 : k = 1
  · subst hk1
    exact ⟨(one_mul _).symm, (one_mul _).symm, (one_mul _).symm, rfl, rfl⟩
  · have hcoefs : rta_biquad_coefs st type f0 q k =
        { rta_biquad_coefs_select st type f0 q 1 with
          b0 := (rta_biquad_coefs_select st type f0 q 1).b0 * k
          b1 := (rta_biquad_coefs_select st type f0 q 1).b1 * k
          b2 := (rta_biquad_coefs_select st type f0 q 1).b2 * k } := by
      rw [rta_biquad_coefs, if_pos ⟨ht, hk1⟩, hsel]
    rw [hcoefs, hone]
    exact ⟨mul_comm _ k, mul_comm _ k, mul_comm _ k, rfl, rfl⟩

/-- Witness for C4 at `type = rta_lowpass`, `f0 = 1/2`, `q = 1`, `k = 2`. -/
theorem C4_witness :
    (rta_biquad_coefs ⟨0, 0, 0, 0, 0⟩ rta_lowpass (1/2) 1 2).b0 =
      2 * (rta_biquad_coefs ⟨0, 0, 0, 0, 0⟩ rta_lowpass (1/2) 1 1).b0 :=
  (C4_gain_linearity ⟨0, 0, 0, 0, 0⟩ rta_lowpass (1/2) 1 2 (Or.inl rfl) (by norm_num)
    (by norm_num) (by norm_num) (by norm_num)).1

/-- Claim C5: for the peaking, low-shelf and high-shelf types,
`rta_biquad_coefs` returns exactly the coefficients of the corresponding
formula function, with no additional post-hoc scaling of `b0, b1, b2` by
`gain`, for every `f0 ∈ (0,1)`, `q > 0`, `gain > 0`. -/
theorem C5_no_post_scale_for_gain_shapes (st : BiquadCoefs) (f0 q gain : ℝ)
    (hf0 : 0 < f0) (hf1 : f0 < 1) (hq : 0 < q) (hg : 0 < gain) :
    rta_biquad_coefs st rta_peaking f0 q gain = rta_biquad_peaking_coefs st f0 q gain ∧
    rta_biquad_coefs st rta_lowshelf f0 q gain = rta_biquad_lowshelf_coefs st f0 q gain ∧
    rta_biquad_coefs st rta_highshelf f0 q gain =
      rta_biquad_highshelf_coefs st f0 q gain := by
  refine ⟨?_, ?_, ?_⟩ <;>
    rw [rta_biquad_coefs, rta_biquad_coefs_select] <;>
    norm_num [rta_lowpass, rta_highpass, rta_bandpass_constant_skirt,
      rta_bandpass_constant_peak, rta_notch, rta_allpass, rta_peaking, rta_lowshelf,
      rta_highshelf]

/-- Witness for C5 at `f0 = 1/2`, `q = 1`, `gain = 4` for the peaking shape. -/
theorem C5_witness :
    rta_biquad_coefs ⟨0, 0, 0, 0, 0⟩ rta_peaking (1/2) 1 4 =
      rta_biquad_peaking_coefs ⟨0, 0, 0, 0, 0⟩ (1/2) 1 4 :=
  (C5_no_post_scale_for_gain_shapes ⟨0, 0, 0, 0, 0⟩ (1/2) 1 4 (by norm_num) (by norm_num)
    (by norm_num) (by norm_num)).1

/-- Counterexample for claim C6: calling the design entry point with `q = 0`
does not return any validation error — the formula layer is reached and a
coefficient set is written.  At `type = rta_lowpass`, `f0 = 1/2`, `q = 0`,
`gain = 1` the embedding (real arithmetic, where `x / 0 = 0`) returns the
concrete coefficient set below; the C code at the same input divides by zero
in `alpha` and still writes the cells, with no error path. -/
theorem C6_counterexample :
    rta_biquad_coefs ⟨0, 0, 0, 0, 0⟩ rta_lowpass (1/2) 0 1 = ⟨0.5, 1, 0.5, 0, 1⟩ := by
  have hpi : Real.pi * (1/2 : ℝ) = Real.pi / 2 := by ring
  rw [rta_biquad_coefs, rta_biquad_coefs_select]
  norm_num [rta_lowpass, rta_highpass, rta_bandpass_constant_skirt,
    rta_bandpass_constant_peak, rta_notch, rta_allpass, rta_biquad_lowpass_coefs, hpi,
    Real.sin_pi_div_two, Real.cos_pi_div_two, BiquadCoefs.mk.injEq]

/-- Claim C6 as amended: `rta_biquad_coefs` performs no parameter
validation; with `q = 0` the call still reaches the formula layer and
returns whatever `rta_biquad_lowpass_coefs` computes at `q = 0`, reporting
no error. -/
theorem C6_q_zero_reaches_formula (st : BiquadCoefs) (f0 : ℝ) :
    rta_biquad_coefs st rta_lowpass f0 0 1 = rta_biquad_lowpass_coefs st f0 0 := by
  rw [rta_biquad_coefs, rta_biquad_coefs_select]
  norm_num [rta_lowpass]

/-- At `sample_rate = 100` and `min_freq = 10` the mex entry point's required
analysis window size is `ceil(100/10) + 2 = 12`. -/
lemma mex_ac_size_100_10 : mex_ac_size 100 10 = 12 := by
  rw [mex_ac_size]
  norm_num
  decide

/-- Counterexample for claim C9: at `sample_rate = 100`, `min_freq = 10` the
required size is `12`; an input buffer of exactly `12` points is not shorter
than that size, yet the call still produces no outputs and emits the
diagnostic (naming `13` minimum and `24` recommended points) — the C branch
is `ac_size < input_size`, so equality also falls into the diagnostic arm,
contradicting "exactly when the input buffer is shorter". -/
theorem C9_counterexample :
    ¬ (12 < mex_ac_size 100 10) ∧
    mexFunction ⟨1, 0, fun _ => 0⟩ 12 100 10 = MexYinOutcome.diagnostic 13 24 := by
  refine ⟨by rw [mex_ac_size_100_10]; decide, ?_⟩
  rw [mexFunction, mex_ac_size_100_10]
  norm_num

/-- Claim C9 as amended: the required analysis window size is
`ceil(sampleRate/minFreq) + 2`, and the call produces the five outputs
exactly when the input buffer holds strictly more points than that size;
when `input_size ≤ ac_size` (the buffer has fewer than the `ac_size + 1`
points the diagnostic names as minimum) it produces no outputs and only
emits the diagnostic with the minimum (`ac_size + 1`) and recommended
(`2·ac_size`) buffer lengths. -/
theorem C9_buffer_size_branch (r : YinResult) (input_size : ℕ)
    (sample_rate min_freq : ℝ) :
    (input_size ≤ mex_ac_size sample_rate min_freq →
      mexFunction r input_size sample_rate min_freq =
        MexYinOutcome.diagnostic (mex_ac_size sample_rate min_freq + 1)
          (2 * mex_ac_size sample_rate min_freq)) ∧
    (mex_ac_size sample_rate min_freq < input_size →
      mexFunction r input_size sample_rate min_freq =
        MexYinOutcome.outputs (sample_rate / r.lag)
          (Real.sqrt (r.autocorrelation 0 /
            ((input_size : ℝ) - (mex_ac_size sample_rate min_freq : ℝ))))
          (1 - Real.sqrt r.abs_min)
          (mex_ac1_over_ac0 r.autocorrelation)
          r.autocorrelation (mex_ac_size sample_rate min_freq)) := by
  constructor
  · intro h
    rw [mexFunction]
    simp only [if_neg (Nat.not_lt.mpr h)]
  · intro h
    rw [mexFunction]
    simp only [if_pos h]

/-- Witness for the amended C9: with `sample_rate = 100`, `min_freq = 10` and
a buffer of `12` points the call lands in the diagnostic arm. -/
theorem C9_witness :
    mexFunction ⟨1, 0, fun _ => 0⟩ 12 100 10 = MexYinOutcome.diagnostic 13 24 := by
  have h := (C9_buffer_size_branch ⟨1, 0, fun _ => 0⟩ 12 100 10).1
    (by rw [mex_ac_size_100_10])
  rwa [mex_ac_size_100_10] at h

/-- Claim C10: whenever the computed branch is taken, the `ac1_over_ac0`
output equals `autocorrelation[1]/autocorrelation[0]` when
`autocorrelation[0]` is non-zero and `0` when it is zero — the division is
always guarded. -/
theorem C10_ac1_over_ac0_guarded (r : YinResult) (input_size : ℕ)
    (sample_rate min_freq : ℝ) (h : mex_ac_size sample_rate min_freq < input_size) :
    (∃ f0v ev pv,
      mexFunction r input_size sample_rate min_freq =
        MexYinOutcome.outputs f0v ev pv (mex_ac1_over_ac0 r.autocorrelation)
          r.autocorrelation (mex_ac_size sample_rate min_freq)) ∧
    (r.autocorrelation 0 ≠ 0 →
      mex_ac1_over_ac0 r.autocorrelation =
        r.autocorrelation 1 / r.autocorrelation 0) ∧
    (r.autocorrelation 0 = 0 → mex_ac1_over_ac0 r.autocorrelation = 0) := by
  refine ⟨⟨sample_rate / r.lag,
    Real.sqrt (r.autocorrelation 0 /
      ((input_size : ℝ) - (mex_ac_size sample_rate min_freq : ℝ))),
    1 - Real.sqrt r.abs_min, ?_⟩, ?_, ?_⟩
  · rw [mexFunction]
    simp only [if_pos h]
  · intro h0
    rw [mex_ac1_over_ac0, if_pos h0]
  · intro h0
    rw [mex_ac1_over_ac0]
    simp [h0]

/-- Witness for C10: a buffer of `13 > 12` points with `autocorrelation[0] = 2`
and `autocorrelation[1] = 6` yields `ac1_over_ac0 = 3`. -/
theorem C10_witness :
    mex_ac1_over_ac0 (fun n => if n = 0 then (2 : ℝ) else 6) = 3 := by
  have h := (C10_ac1_over_ac0_guarded ⟨1, 0, fun n => if n = 0 then (2 : ℝ) else 6⟩ 13
    100 10 (by rw [mex_ac_size_100_10]; decide)).2.1 (by norm_num)
  norm_num at h
  linarith
